import Mathlib

/-
Verification of the RigRanger-Server daemon session manager
(`rigranger_server/hamlib_manager.py` and its near-identical copy
`rigranger_server/hamlib/hamlib_manager.py`).

The Python code is shallowly embedded: pure response parsing becomes Lean
functions on `String`, the blocking receive loop of `execute_command` becomes
a recursion over a scripted list of socket chunks with explicit arrival
times, and the reconnection logic becomes a step relation on an explicit
session-state record.  Python `Exception` raising is modelled with
`Except String`.
-/

namespace RigRanger

instance {ε α : Type} [DecidableEq ε] [DecidableEq α] : DecidableEq (Except ε α) := fun a b =>
  match a, b with
  | Except.ok x, Except.ok y =>
      if h : x = y then isTrue (by rw [h]) else isFalse (by intro he; cases he; exact h rfl)
  | Except.error x, Except.error y =>
      if h : x = y then isTrue (by rw [h]) else isFalse (by intro he; cases he; exact h rfl)
  | Except.ok _, Except.error _ => isFalse (by intro he; cases he)
  | Except.error _, Except.ok _ => isFalse (by intro he; cases he)

/-! ## Python string primitives -/

/-- Characters treated as whitespace by Python `str.strip()` / `bytes.strip()`
(ASCII whitespace; the responses handled here are ASCII). -/
def pyWhitespace (c : Char) : Bool :=
  c = ' ' || c = '\t' || c = '\n' || c = '\r' || c = '\x0b' || c = '\x0c'

/-- Python `s.strip()`: remove leading and trailing whitespace. -/
def pyStrip (s : String) : String :=
  String.mk (((s.data.dropWhile pyWhitespace).reverse.dropWhile pyWhitespace).reverse)

/-- Helper for `pyIn`: does `n` start at some position of the list? -/
def containsAux (n : List Char) : List Char → Bool
  | [] => n.isEmpty
  | c :: cs => n.isPrefixOf (c :: cs) || containsAux n cs

/-- Python `needle in hay` on strings: substring occurrence anywhere. -/
def pyIn (needle hay : String) : Bool :=
  containsAux needle.data hay.data

/-- Python `s.endswith(suffix)`. -/
def pyEndswith (suffix s : String) : Bool :=
  suffix.data.isSuffixOf s.data

/-- Python `s.split('\n')[0]`: everything before the first newline
(the whole string when no newline occurs, so the index never fails). -/
def firstLine (s : String) : String :=
  String.mk (s.data.takeWhile (fun c => c ≠ '\n'))

/-- Helper for `pySplitWs`: accumulates the current word (reversed). -/
def splitWsAux : List Char → List Char → List String
  | [], acc => if acc.isEmpty then [] else [String.mk acc.reverse]
  | c :: cs, acc =>
      if pyWhitespace c then
        if acc.isEmpty then splitWsAux cs []
        else String.mk acc.reverse :: splitWsAux cs []
      else splitWsAux cs (c :: acc)

/-- Python `s.split()` with no argument: split on whitespace runs,
discarding empty pieces. -/
def pySplitWs (s : String) : List String :=
  splitWsAux s.data []

/-- Reads a maximal run of decimal digits: value, number of digits, rest. -/
def parseNatDigits : List Char → Nat → Nat → Nat × Nat × List Char
  | [], acc, n => (acc, n, [])
  | c :: cs, acc, n =>
      if c.isDigit then parseNatDigits cs (acc * 10 + (c.toNat - 48)) (n + 1)
      else (acc, n, c :: cs)

/-- Python `float(s)` on the decimal forms produced by rigctld
(optional sign, digits, optional fractional part); exotic float syntax
(exponents, inf/nan) is outside the protocol and modelled as a parse
failure.  `none` models `float` raising `ValueError`.  The numeric result
is kept exact as a rational. -/
def pyFloat? (s : String) : Option Rat :=
  let cs0 := (pyStrip s).data
  let signAndRest : Bool × List Char :=
    match cs0 with
    | '-' :: rest => (true, rest)
    | '+' :: rest => (false, rest)
    | _ => (false, cs0)
  let neg := signAndRest.1
  let ipOut := parseNatDigits signAndRest.2 0 0
  let ip := ipOut.1
  let ni := ipOut.2.1
  match ipOut.2.2 with
  | [] =>
      if ni = 0 then none
      else some (if neg then -(ip : Rat) else (ip : Rat))
  | '.' :: rest =>
      let fpOut := parseNatDigits rest 0 0
      let fp := fpOut.1
      let nf := fpOut.2.1
      if ni + nf = 0 then none
      else if fpOut.2.2.isEmpty then
        let mag : Rat := (ip : Rat) + (fp : Rat) / ((10 : Rat) ^ nf)
        some (if neg then -mag else mag)
      else none
  | _ => none

/-- Python `int(s)` (optional sign, decimal digits only); `none` models
`int` raising `ValueError`. -/
def pyInt? (s : String) : Option Int :=
  let cs0 := (pyStrip s).data
  let signAndRest : Bool × List Char :=
    match cs0 with
    | '-' :: rest => (true, rest)
    | '+' :: rest => (false, rest)
    | _ => (false, cs0)
  let out := parseNatDigits signAndRest.2 0 0
  if out.2.1 = 0 then none
  else if out.2.2.isEmpty then
    some (if signAndRest.1 then -(out.1 : Int) else (out.1 : Int))
  else none

/-! ## Typed operations on a raw response string

Each function is the body of the corresponding `HamlibManager` method after
`execute_command` has returned the raw response; `Except.error` models the
method raising `Exception`. -/

/-- `HamlibManager.get_frequency`, given the raw response. -/
def getFrequencyOfResponse (response : String) : Except String Rat :=
  if pyIn "RPRT 0" response then
    match pyFloat? (pyStrip (firstLine response)) with
    | some q => Except.ok q
    | none => Except.error "Failed to parse frequency: could not convert string to float"
  else Except.error ("Failed to get frequency: " ++ response)

/-- `HamlibManager.set_frequency`, given the raw response. -/
def setFrequencyOfResponse (response : String) : Except String Bool :=
  if pyIn "RPRT 0" response then Except.ok true
  else Except.error ("Failed to set frequency: " ++ response)

/-- `HamlibManager.get_mode`, given the raw response: mode token plus
passband, the passband defaulting to 0 when the first line has a single
field. -/
def getModeOfResponse (response : String) : Except String (String × Int) :=
  if pyIn "RPRT 0" response then
    match pySplitWs (pyStrip (firstLine response)) with
    | [] => Except.error "Failed to parse mode: list index out of range"
    | m :: rest =>
        match rest with
        | [] => Except.ok (m, 0)
        | p :: _ =>
            match pyInt? p with
            | some n => Except.ok (m, n)
            | none => Except.error "Failed to parse mode: invalid literal for int"
  else Except.error ("Failed to get mode: " ++ response)

/-- `HamlibManager.set_mode`, given the raw response. -/
def setModeOfResponse (response : String) : Except String Bool :=
  if pyIn "RPRT 0" response then Except.ok true
  else Except.error ("Failed to set mode: " ++ response)

/-- `HamlibManager.get_ptt`, given the raw response: the first line parsed
as an integer, any nonzero value meaning PTT enabled. -/
def getPttOfResponse (response : String) : Except String Bool :=
  if pyIn "RPRT 0" response then
    match pyInt? (pyStrip (firstLine response)) with
    | some n => Except.ok (decide (n ≠ 0))
    | none => Except.error "Failed to parse PTT: invalid literal for int"
  else Except.error ("Failed to get PTT: " ++ response)

/-- `HamlibManager.set_ptt`, given the raw response. -/
def setPttOfResponse (response : String) : Except String Bool :=
  if pyIn "RPRT 0" response then Except.ok true
  else Except.error ("Failed to set PTT: " ++ response)

/-- `HamlibManager.get_level`, given the raw response. -/
def getLevelOfResponse (levelName response : String) : Except String Rat :=
  if pyIn "RPRT 0" response then
    match pyFloat? (pyStrip (firstLine response)) with
    | some q => Except.ok q
    | none => Except.error ("Failed to parse level " ++ levelName)
  else Except.error ("Failed to get level " ++ levelName ++ ": " ++ response)

/-- `HamlibManager.set_level`, given the raw response. -/
def setLevelOfResponse (levelName response : String) : Except String Bool :=
  if pyIn "RPRT 0" response then Except.ok true
  else Except.error ("Failed to set level " ++ levelName ++ ": " ++ response)

/-! ## The receive loop of `HamlibManager.execute_command`

The daemon side of the socket is scripted as a list of chunks, each carrying
the text `recv` returns and the time `recv` waited for it; `Chunk.eofMark`
models `recv` returning an empty buffer (connection closed).  When the list
is exhausted the next `recv` finds no data and the 2-second socket timeout
set by `settimeout(2)` fires (`socket.timeout`), which the method's
`except` block re-raises as a command-execution failure.  A chunk whose
wait exceeds 2 seconds is likewise never delivered: `recv` times out
first. -/

inductive Chunk : Type
  | data (s : String) (dt : Rat)
  | eofMark
  deriving DecidableEq

/-- The completeness test of the loop:
`response.strip().endswith(b'RPRT 0') or response.strip().endswith(b'RPRT -1')`. -/
def rprtComplete (response : String) : Bool :=
  pyEndswith "RPRT 0" (pyStrip response) || pyEndswith "RPRT -1" (pyStrip response)

/-- The `while True` accumulation loop of `execute_command`: `resp` is the
bytes received so far and `t` the wall-clock time elapsed since
`start_time`.  After appending a chunk the loop first tests the two
recognised terminators and then the 2-second deadline, in that order. -/
def recvLoop (resp : String) (t : Rat) : List Chunk → Except String String
  | [] => Except.error "Command execution failed: timed out"
  | Chunk.eofMark :: _ => Except.ok (pyStrip resp)
  | Chunk.data s dt :: rest =>
      if dt > 2 then Except.error "Command execution failed: timed out"
      else
        let resp2 := resp ++ s
        if rprtComplete resp2 then Except.ok (pyStrip resp2)
        else if t + dt > 2 then Except.ok (pyStrip resp2)
        else recvLoop resp2 (t + dt) rest

/-- The line actually written to the socket: a newline is appended when the
command lacks one. -/
def sentWire (command : String) : String :=
  if pyEndswith "\n" command then command else command ++ "\n"

/-- `HamlibManager.execute_command`: raises when not connected, otherwise
writes the command and runs the receive loop against the scripted socket
chunks. -/
def executeCommand (connected socketSome : Bool) (command : String)
    (stream : List Chunk) : Except String String :=
  if !connected || !socketSome then Except.error "Not connected to rigctld"
  else
    let _ := sentWire command
    recvLoop "" 0 stream

/-! ## `HamlibManager.get_info`

The three sub-queries (`\dump_state`, `\get_freq`, `\get_mode`) are passed in
as the results of their `execute_command` calls (`Except.error` = the call
raised).  Python dict values are embedded in the sum type `Val`; a dict is an
association list in insertion order. -/

/-- A Python dict value as it occurs in the status / info dictionaries. -/
inductive Val : Type
  | vBool (b : Bool)
  | vInt (n : Int)
  | vNat (n : Nat)
  | vStr (s : String)
  | vRat (q : Rat)
  | vNone
  deriving DecidableEq

/-- A `string | None` value (the `device` and `binary_path` fields). -/
def Val.ofOptStr : Option String → Val
  | some s => Val.vStr s
  | none => Val.vNone

/-- The `frequency` entry of `get_info`: present only when `\get_freq`
succeeded, its response contains `RPRT 0`, and the first line parses as a
float; every failure is caught by the inner `try` and merely logged. -/
def freqInfoFields (freqR : Except String String) : List (String × Val) :=
  match freqR with
  | Except.error _ => []
  | Except.ok r =>
      if pyIn "RPRT 0" r then
        match pyFloat? (pyStrip (firstLine r)) with
        | some q => [("frequency", Val.vRat q)]
        | none => []
      else []

/-- The `mode` / `passband` entries of `get_info`: `mode` is set from the
first field of the first line, then `passband` from the second field when it
is present and parses as an integer; the `int` failure is caught after
`mode` has already been stored, so `mode` survives alone in that case. -/
def modeInfoFields (modeR : Except String String) : List (String × Val) :=
  match modeR with
  | Except.error _ => []
  | Except.ok r =>
      if pyIn "RPRT 0" r then
        match pySplitWs (pyStrip (firstLine r)) with
        | [] => []
        | m :: rest =>
            ("mode", Val.vStr m) ::
              (match rest with
               | [] => []
               | p :: _ =>
                   match pyInt? p with
                   | some n => [("passband", Val.vInt n)]
                   | none => [])
      else []

/-- `HamlibManager.get_info`: raises when not connected; a failed
`\dump_state` escapes the outer `try` and fails the whole call; failed
frequency / mode sub-queries only suppress their own fields. -/
def getInfo (model : Int) (device : Option String) (connected : Bool)
    (dumpR freqR modeR : Except String String) : Except String (List (String × Val)) :=
  if !connected then Except.error "Not connected to rigctld"
  else
    match dumpR with
    | Except.error e => Except.error ("Failed to get radio info: " ++ e)
    | Except.ok _ =>
        Except.ok ([("model", Val.vInt model), ("device", Val.ofOptStr device)]
          ++ freqInfoFields freqR ++ modeInfoFields modeR)

/-! ## The session state machine

One `HamlibManager` instance, with the fields the reconnection logic,
`stop` and `get_status` read or write.  `status` events are recorded in
`events` (append at the tail; payloads are reduced to their status value
plus the attempt number for `reconnecting`).  `liveTimers` counts
`threading.Timer` objects that have been started and have neither fired nor
been cancelled, while `reconnectTimerSet` is the test
`self.reconnect_timer is not None`; nothing in the source ever cancels a
timer.  `rigctldProc` is `self.rigctld_process`: `none` when the field is
`None`, otherwise `some alive` where `alive` is `poll() is None`. -/

/-- A recorded `status` event. -/
inductive Ev : Type
  | connectedEv
  | disconnectedEv
  | reconnecting (attempt : Nat)
  | errorEv
  | giveUp
  deriving DecidableEq

/-- The manager state. -/
structure MState : Type where
  connected : Bool
  socketSome : Bool
  rigctldProc : Option Bool
  reconnectAttempts : Nat
  maxReconnectAttempts : Nat
  reconnectTimerSet : Bool
  liveTimers : Nat
  model : Int
  device : Option String
  host : String
  port : Nat
  binaryPath : Option String
  events : List Ev
  deriving DecidableEq

/-- `HamlibManager.__init__` (with no rigctld binary found). -/
def initState : MState :=
  { connected := false
    socketSome := false
    rigctldProc := none
    reconnectAttempts := 0
    maxReconnectAttempts := 5
    reconnectTimerSet := false
    liveTimers := 0
    model := 1
    device := none
    host := "127.0.0.1"
    port := 4532
    binaryPath := none
    events := [] }

/-- `HamlibManager._schedule_reconnect`: only when attempts remain and no
timer is pending does it bump the counter, emit `reconnecting`, and start a
timer. -/
def scheduleReconnect (s : MState) : MState :=
  if s.reconnectAttempts < s.maxReconnectAttempts && !s.reconnectTimerSet then
    { s with
      reconnectAttempts := s.reconnectAttempts + 1
      events := s.events ++ [Ev.reconnecting (s.reconnectAttempts + 1)]
      reconnectTimerSet := true
      liveTimers := s.liveTimers + 1 }
  else s

/-- `HamlibManager.connect` with outcome `ok`: closes any previous socket
and creates a new one, then either succeeds (listen thread started, attempt
counter reset) or fails (emits an `error` status and schedules a
reconnect). -/
def connectRun (ok : Bool) (s : MState) : MState :=
  if ok then
    { s with socketSome := true, connected := true, reconnectAttempts := 0 }
  else
    scheduleReconnect
      { s with socketSome := true, connected := false, events := s.events ++ [Ev.errorEv] }

/-- The tail of `HamlibManager._reconnect`: after `connect` has returned
`ok`, schedule once more when it failed with attempts remaining (`connect`
itself already scheduled, making this a no-op behind the re-entrancy
guard). -/
def reconnectFinish (ok : Bool) (s2 : MState) : MState :=
  if !ok && decide (s2.reconnectAttempts < s2.maxReconnectAttempts) then scheduleReconnect s2
  else s2

/-- `HamlibManager._reconnect`: clears the timer reference (the fired timer
is no longer live), tries `connect`, then `reconnectFinish`. -/
def reconnectFire (ok : Bool) (s : MState) : MState :=
  reconnectFinish ok
    (connectRun ok { s with reconnectTimerSet := false, liveTimers := s.liveTimers - 1 })

/-- Tail of `HamlibManager._listen` when the receive loop exits while the
session still believes it is connected: emit `disconnected` and schedule a
reconnect. -/
def connectionLost (s : MState) : MState :=
  if s.connected then
    scheduleReconnect
      { s with connected := false, events := s.events ++ [Ev.disconnectedEv] }
  else s

/-- Outcomes of `HamlibManager.start_rigctld`. -/
inductive StartOutcome : Type
  | noBinary
  | diedEarly
  | live (connectOk : Bool)

/-- `HamlibManager.start_rigctld`: error status when the binary is missing
or the process exits during the grace period, otherwise a `connect` attempt
followed by a `connected` status on success. -/
def startRigctld : StartOutcome → MState → MState
  | StartOutcome.noBinary, s => { s with events := s.events ++ [Ev.errorEv] }
  | StartOutcome.diedEarly, s =>
      { s with rigctldProc := some false, events := s.events ++ [Ev.errorEv] }
  | StartOutcome.live ok, s =>
      let s2 := connectRun ok { s with rigctldProc := some true }
      if ok then { s2 with events := s2.events ++ [Ev.connectedEv] } else s2

/-- `HamlibManager.stop`: close the socket (guarded by `if self.socket`),
terminate the daemon process (guarded by `if self.rigctld_process`), mark
disconnected and emit a final `disconnected` status.  The reconnection
timer fields are not touched: `stop` never cancels a pending timer. -/
def stopRun (s : MState) : MState :=
  { s with
    socketSome := false
    rigctldProc := none
    connected := false
    events := s.events ++ [Ev.disconnectedEv] }

/-- `HamlibManager.get_status` of `rigranger_server/hamlib_manager.py`:
a four-entry dict; the state is returned unchanged (the method only
reads). -/
def getStatusV1 (s : MState) : List (String × Val) × MState :=
  ([("connected", Val.vBool s.connected),
    ("model", Val.vInt s.model),
    ("device", Val.ofOptStr s.device),
    ("port", Val.vNat s.port)], s)

/-- `HamlibManager.get_status` of `rigranger_server/hamlib/hamlib_manager.py`:
a nine-entry dict, `rigctld_running` being
`rigctld_process is not None and rigctld_process.poll() is None`. -/
def getStatusV2 (s : MState) : List (String × Val) × MState :=
  ([("connected", Val.vBool s.connected),
    ("port", Val.vNat s.port),
    ("host", Val.vStr s.host),
    ("model", Val.vInt s.model),
    ("device", Val.ofOptStr s.device),
    ("binary_path", Val.ofOptStr s.binaryPath),
    ("reconnect_attempts", Val.vNat s.reconnectAttempts),
    ("max_reconnect_attempts", Val.vNat s.maxReconnectAttempts),
    ("rigctld_running", Val.vBool (match s.rigctldProc with
                                   | some alive => alive
                                   | none => false))], s)

/-- One externally triggered or internally scheduled transition of the
session. -/
inductive Step : MState → MState → Prop
  | connectCall (ok : Bool) (s : MState) : Step s (connectRun ok s)
  | startDaemon (o : StartOutcome) (s : MState) : Step s (startRigctld o s)
  | lost (s : MState) : s.connected = true → Step s (connectionLost s)
  | timerFired (ok : Bool) (s : MState) : 0 < s.liveTimers → Step s (reconnectFire ok s)
  | stopCall (s : MState) : Step s (stopRun s)

/-- States reachable from a freshly constructed manager. -/
inductive Reachable : MState → Prop
  | init : Reachable initState
  | step {s s2 : MState} : Reachable s → Step s s2 → Reachable s2

/-! ## The event callback registry (`on` / `emit`)

A callback is a handler with an identity; calling it either returns or
raises (`Except.error`).  `emitList` is the `for` loop of `emit`, returning
the identities invoked, in order, together with the Python-level outcome of
the whole loop (`Except.error` would mean an exception escaped to the
emitter). -/

/-- A registered callback: an identity and a possibly raising handler. -/
structure Cb (α : Type) : Type where
  id : Nat
  run : α → Except String Unit

/-- `self.event_callbacks`: one list per supported event name. -/
structure Callbacks (α : Type) : Type where
  status : List (Cb α)
  data : List (Cb α)
  debug : List (Cb α)

/-- The lookup `self.event_callbacks[event]` guarded by
`event in self.event_callbacks`. -/
def getCallbacks (r : Callbacks α) (event : String) : Option (List (Cb α)) :=
  if event = "status" then some r.status
  else if event = "data" then some r.data
  else if event = "debug" then some r.debug
  else none

/-- `HamlibManager.on`: appends the callback when the event name is known,
otherwise does nothing. -/
def onRegister (r : Callbacks α) (event : String) (c : Cb α) : Callbacks α :=
  if event = "status" then { r with status := r.status ++ [c] }
  else if event = "data" then { r with data := r.data ++ [c] }
  else if event = "debug" then { r with debug := r.debug ++ [c] }
  else r

/-- The `for callback in ...` loop of `emit`: each call sits inside
`try ... except Exception`, so a raising handler is logged and the loop
moves on; both match arms therefore continue identically. -/
def emitList : List (Cb α) → α → List Nat × Except String Unit
  | [], _ => ([], Except.ok ())
  | c :: rest, x =>
      match c.run x with
      | Except.ok _ =>
          let r := emitList rest x
          (c.id :: r.1, r.2)
      | Except.error _ =>
          let r := emitList rest x
          (c.id :: r.1, r.2)

/-- `HamlibManager.emit`: a no-op for unknown event names. -/
def emitEvent (r : Callbacks α) (event : String) (x : α) : List Nat × Except String Unit :=
  match getCallbacks r event with
  | some cbs => emitList cbs x
  | none => ([], Except.ok ())

/-! ## The inductive invariant of the session state machine -/

/-- Facts preserved by every step: the attempt counter stays within the
bound, the bound keeps its default value, the live-timer count mirrors the
timer reference (hence at most one timer is ever pending), and no `give-up`
status event is ever emitted. -/
def Inv (s : MState) : Prop :=
  s.reconnectAttempts ≤ s.maxReconnectAttempts ∧
  s.maxReconnectAttempts = 5 ∧
  s.liveTimers = (if s.reconnectTimerSet then 1 else 0) ∧
  ∀ e ∈ s.events, e ≠ Ev.giveUp

/-! ## A concrete run that exhausts every reconnection attempt

Connect succeeds, the connection is lost, and all five scheduled attempts
fail; `runS7` is the state after the fifth and final attempt has failed. -/

/-- Session after a successful external connect. -/
def runS1 : MState := connectRun true initState

/-- The connection drops: attempt 1 is scheduled. -/
def runS2 : MState := connectionLost runS1

/-- Attempt 1 fires and fails: attempt 2 scheduled. -/
def runS3 : MState := reconnectFire false runS2

/-- Attempt 2 fires and fails: attempt 3 scheduled. -/
def runS4 : MState := reconnectFire false runS3

/-- Attempt 3 fires and fails: attempt 4 scheduled. -/
def runS5 : MState := reconnectFire false runS4

/-- Attempt 4 fires and fails: attempt 5 (the last) scheduled. -/
def runS6 : MState := reconnectFire false runS5

/-- Attempt 5 fires and fails: attempts exhausted, nothing more scheduled. -/
def runS7 : MState := reconnectFire false runS6

/-- `stop` and state equality up to the event log. -/
def stripEvents (s : MState) : MState := { s with events := [] }

/-- A demonstration callback that returns normally. -/
def demoCb1 : Cb Nat := ⟨1, fun _ => Except.ok ()⟩

/-- A demonstration callback that raises. -/
def demoCb2 : Cb Nat := ⟨2, fun _ => Except.error "handler raised"⟩

/-- A second well-behaved demonstration callback, registered after the
raising one. -/
def demoCb3 : Cb Nat := ⟨3, fun _ => Except.ok ()⟩

/-- A registry with the three demonstration callbacks on `status`. -/
def demoReg : Callbacks Nat := ⟨[demoCb1, demoCb2, demoCb3], [], []⟩

/-! ## Theorems about the embedding -/

/-! Unfolding lemmas for the receive loop, one per branch of the body. -/

theorem recvLoop_nil (resp : String) (t : Rat) :
    recvLoop resp t [] = Except.error "Command execution failed: timed out" := rfl

theorem recvLoop_eof (resp : String) (t : Rat) (rest : List Chunk) :
    recvLoop resp t (Chunk.eofMark :: rest) = Except.ok (pyStrip resp) := rfl

theorem recvLoop_data_recvTimeout (resp s : String) (t dt : Rat) (rest : List Chunk)
    (h1 : dt > 2) :
    recvLoop resp t (Chunk.data s dt :: rest) =
      Except.error "Command execution failed: timed out" := by
  simp only [recvLoop]
  rw [if_pos h1]

theorem recvLoop_data_complete (resp s : String) (t dt : Rat) (rest : List Chunk)
    (h1 : ¬dt > 2) (h2 : rprtComplete (resp ++ s) = true) :
    recvLoop resp t (Chunk.data s dt :: rest) = Except.ok (pyStrip (resp ++ s)) := by
  simp only [recvLoop]
  rw [if_neg h1]
  simp only [h2, if_true]

theorem recvLoop_data_deadline (resp s : String) (t dt : Rat) (rest : List Chunk)
    (h1 : ¬dt > 2) (h2 : rprtComplete (resp ++ s) = false) (h3 : t + dt > 2) :
    recvLoop resp t (Chunk.data s dt :: rest) = Except.ok (pyStrip (resp ++ s)) := by
  simp only [recvLoop]
  rw [if_neg h1]
  simp only [h2, Bool.false_eq_true, if_false]
  rw [if_pos h3]

theorem recvLoop_data_continue (resp s : String) (t dt : Rat) (rest : List Chunk)
    (h1 : ¬dt > 2) (h2 : rprtComplete (resp ++ s) = false) (h3 : ¬t + dt > 2) :
    recvLoop resp t (Chunk.data s dt :: rest) = recvLoop (resp ++ s) (t + dt) rest := by
  simp only [recvLoop]
  rw [if_neg h1]
  simp only [h2, Bool.false_eq_true, if_false]
  rw [if_neg h3]

theorem executeCommand_connected (command : String) (stream : List Chunk) :
    executeCommand true true command stream = recvLoop "" 0 stream := rfl

theorem inv_initState : Inv initState := by
  refine ⟨by decide, by decide, by decide, ?_⟩
  intro e he
  simp [initState] at he

theorem inv_scheduleReconnect {s : MState} (h : Inv s) : Inv (scheduleReconnect s) := by
  obtain ⟨h1, h2, h3, h4⟩ := h
  unfold scheduleReconnect
  split
  case isTrue hc =>
    have hlt : s.reconnectAttempts < s.maxReconnectAttempts := by
      have := (Bool.and_eq_true _ _).mp hc
      exact of_decide_eq_true this.1
    have hts : s.reconnectTimerSet = false := by
      have := (Bool.and_eq_true _ _).mp hc
      simpa using this.2
    refine ⟨hlt, h2, ?_, ?_⟩
    · simp [hts] at h3
      simp [h3]
    · intro e he
      rcases List.mem_append.mp he with hl | hr
      · exact h4 e hl
      · simp at hr
        simp [hr]
  case isFalse => exact ⟨h1, h2, h3, h4⟩

theorem inv_connectRun {s : MState} (ok : Bool) (h : Inv s) : Inv (connectRun ok s) := by
  obtain ⟨h1, h2, h3, h4⟩ := h
  unfold connectRun
  cases ok with
  | true => exact ⟨Nat.zero_le _, h2, h3, h4⟩
  | false =>
      apply inv_scheduleReconnect
      refine ⟨h1, h2, h3, ?_⟩
      intro e he
      rcases List.mem_append.mp he with hl | hr
      · exact h4 e hl
      · simp at hr
        simp [hr]

theorem inv_reconnectFinish {s : MState} (ok : Bool) (h : Inv s) :
    Inv (reconnectFinish ok s) := by
  unfold reconnectFinish
  split
  · exact inv_scheduleReconnect h
  · exact h

theorem inv_reconnectFire {s : MState} (ok : Bool) (h : Inv s) : Inv (reconnectFire ok s) := by
  obtain ⟨h1, h2, h3, h4⟩ := h
  have hinner : Inv { s with reconnectTimerSet := false, liveTimers := s.liveTimers - 1 } := by
    refine ⟨h1, h2, ?_, h4⟩
    show s.liveTimers - 1 = if (false : Bool) = true then 1 else 0
    rw [h3]
    cases s.reconnectTimerSet <;> simp
  exact inv_reconnectFinish ok (inv_connectRun ok hinner)

theorem inv_connectionLost {s : MState} (h : Inv s) : Inv (connectionLost s) := by
  obtain ⟨h1, h2, h3, h4⟩ := h
  unfold connectionLost
  split
  · apply inv_scheduleReconnect
    refine ⟨h1, h2, h3, ?_⟩
    intro e he
    rcases List.mem_append.mp he with hl | hr
    · exact h4 e hl
    · simp at hr
      simp [hr]
  · exact ⟨h1, h2, h3, h4⟩

theorem inv_startRigctld {s : MState} (o : StartOutcome) (h : Inv s) :
    Inv (startRigctld o s) := by
  obtain ⟨h1, h2, h3, h4⟩ := h
  cases o with
  | noBinary =>
      refine ⟨h1, h2, h3, ?_⟩
      intro e he
      rcases List.mem_append.mp he with hl | hr
      · exact h4 e hl
      · simp at hr
        simp [hr]
  | diedEarly =>
      refine ⟨h1, h2, h3, ?_⟩
      intro e he
      rcases List.mem_append.mp he with hl | hr
      · exact h4 e hl
      · simp at hr
        simp [hr]
  | live ok =>
      have hmid : Inv { s with rigctldProc := some true } := ⟨h1, h2, h3, h4⟩
      have hconn := inv_connectRun ok hmid
      unfold startRigctld
      cases ok with
      | true =>
          obtain ⟨g1, g2, g3, g4⟩ := hconn
          refine ⟨g1, g2, g3, ?_⟩
          intro e he
          rcases List.mem_append.mp he with hl | hr
          · exact g4 e hl
          · simp at hr
            simp [hr]
      | false => simpa using hconn

theorem inv_stopRun {s : MState} (h : Inv s) : Inv (stopRun s) := by
  obtain ⟨h1, h2, h3, h4⟩ := h
  refine ⟨h1, h2, h3, ?_⟩
  intro e he
  rcases List.mem_append.mp he with hl | hr
  · exact h4 e hl
  · simp at hr
    simp [hr]

theorem inv_step {s s2 : MState} (h : Inv s) (hs : Step s s2) : Inv s2 := by
  cases hs with
  | connectCall ok s => exact inv_connectRun ok h
  | startDaemon o s => exact inv_startRigctld o h
  | lost s hc => exact inv_connectionLost h
  | timerFired ok s hl => exact inv_reconnectFire ok h
  | stopCall s => exact inv_stopRun h

theorem inv_reachable {s : MState} (h : Reachable s) : Inv s := by
  induction h with
  | init => exact inv_initState
  | step _hr hs ih => exact inv_step ih hs

theorem reachable_runS1 : Reachable runS1 :=
  Reachable.step Reachable.init (Step.connectCall true initState)

theorem reachable_runS2 : Reachable runS2 :=
  Reachable.step reachable_runS1 (Step.lost runS1 (by decide))

theorem reachable_runS3 : Reachable runS3 :=
  Reachable.step reachable_runS2 (Step.timerFired false runS2 (by decide))

theorem reachable_runS4 : Reachable runS4 :=
  Reachable.step reachable_runS3 (Step.timerFired false runS3 (by decide))

theorem reachable_runS5 : Reachable runS5 :=
  Reachable.step reachable_runS4 (Step.timerFired false runS4 (by decide))

theorem reachable_runS6 : Reachable runS6 :=
  Reachable.step reachable_runS5 (Step.timerFired false runS5 (by decide))

theorem reachable_runS7 : Reachable runS7 :=
  Reachable.step reachable_runS6 (Step.timerFired false runS6 (by decide))


/-! ## Supporting lemmas -/

theorem emitList_spec {α : Type} (cbs : List (Cb α)) (x : α) :
    (emitList cbs x).1 = cbs.map Cb.id ∧ (emitList cbs x).2 = Except.ok () := by
  induction cbs with
  | nil => exact ⟨rfl, rfl⟩
  | cons c rest ih =>
      cases hr : c.run x <;>
        · simp only [emitList, hr]
          exact ⟨by rw [List.map_cons, ih.1], ih.2⟩

theorem freqInfoFields_keys (fR : Except String String) :
    ∀ k ∈ (freqInfoFields fR).map Prod.fst, k = "frequency" := by
  intro k hk
  rcases fR with e | r
  · simp [freqInfoFields] at hk
  · by_cases hin : pyIn "RPRT 0" r = true
    · cases hq : pyFloat? (pyStrip (firstLine r)) with
      | none => simp [freqInfoFields, hin, hq] at hk
      | some q =>
          simp [freqInfoFields, hin, hq] at hk
          exact hk
    · simp [freqInfoFields, hin] at hk

theorem modeInfoFields_keys (mR : Except String String) :
    ∀ k ∈ (modeInfoFields mR).map Prod.fst, k = "mode" ∨ k = "passband" := by
  intro k hk
  rcases mR with e | r
  · simp [modeInfoFields] at hk
  · by_cases hin : pyIn "RPRT 0" r = true
    · cases hp : pySplitWs (pyStrip (firstLine r)) with
      | nil => simp [modeInfoFields, hin, hp] at hk
      | cons m rest =>
          cases rest with
          | nil =>
              simp [modeInfoFields, hin, hp] at hk
              exact Or.inl hk
          | cons p ps =>
              cases hn : pyInt? p with
              | none =>
                  simp [modeInfoFields, hin, hp, hn] at hk
                  exact Or.inl hk
              | some n =>
                  simp [modeInfoFields, hin, hp, hn] at hk
                  exact hk
    · simp [modeInfoFields, hin] at hk

/-- Value of `_reconnect` on a failing attempt when the attempt counter has
already reached the bound: the fired timer is gone, `connect` emits only an
`error` status, and neither schedule site passes its guard. -/
theorem reconnectFire_false_exhausted (s : MState)
    (hmax : ¬s.reconnectAttempts < s.maxReconnectAttempts) :
    reconnectFire false s =
      { s with
        reconnectTimerSet := false
        liveTimers := s.liveTimers - 1
        socketSome := true
        connected := false
        events := s.events ++ [Ev.errorEv] } := by
  unfold reconnectFire reconnectFinish connectRun scheduleReconnect
  simp [hmax]

/-! ## The claims -/

/-- C1, counterexample: in the concrete run `runS7` the connection is lost
and every scheduled reconnect attempt fails until the counter reaches the
maximum of 5, yet the event log contains zero `give-up` status events —
not exactly one as claimed (the code has no such event at all). -/
theorem c1_counterexample :
    runS7.reconnectAttempts = runS7.maxReconnectAttempts ∧
    runS7.reconnectTimerSet = false ∧
    runS7.liveTimers = 0 ∧
    runS7.events.count Ev.giveUp = 0 ∧
    runS7.events =
      [Ev.disconnectedEv, Ev.reconnecting 1, Ev.errorEv, Ev.reconnecting 2, Ev.errorEv,
       Ev.reconnecting 3, Ev.errorEv, Ev.reconnecting 4, Ev.errorEv, Ev.reconnecting 5,
       Ev.errorEv] := by
  decide

/-- C1 (amended): when the attempt counter reaches the configured maximum
the session schedules no further automatic reconnect attempts, but it emits
no `give-up` status event either — no reachable state's event log ever
contains one; a final failing attempt leaves the counter at the maximum,
sets no new timer, and adds only an `error` status event. -/
theorem c1_amended : ∀ s : MState, Reachable s →
    Ev.giveUp ∉ s.events ∧
    (s.reconnectAttempts = s.maxReconnectAttempts →
      (reconnectFire false s).reconnectTimerSet = false ∧
      (reconnectFire false s).reconnectAttempts = s.reconnectAttempts ∧
      Ev.giveUp ∉ (reconnectFire false s).events) := by
  intro s hs
  obtain ⟨_h1, _h2, _h3, h4⟩ := inv_reachable hs
  refine ⟨fun hmem => h4 _ hmem rfl, ?_⟩
  intro hmax
  have hnot : ¬s.reconnectAttempts < s.maxReconnectAttempts := by omega
  rw [reconnectFire_false_exhausted s hnot]
  refine ⟨rfl, rfl, ?_⟩
  intro hmem
  rcases List.mem_append.mp hmem with hl | hr
  · exact h4 _ hl rfl
  · simp at hr

/-- C1 witness: the amended theorem applied to the reachable state `runS6`,
whose attempt counter sits at the maximum with the final timer pending. -/
theorem c1_amended_witness :
    Ev.giveUp ∉ runS6.events ∧
    (reconnectFire false runS6).reconnectTimerSet = false ∧
    (reconnectFire false runS6).reconnectAttempts = runS6.reconnectAttempts ∧
    Ev.giveUp ∉ (reconnectFire false runS6).events :=
  ⟨(c1_amended runS6 reachable_runS6).1, (c1_amended runS6 reachable_runS6).2 (by decide)⟩

/-- C2, counterexample: a response whose terminal status line is `RPRT -9`
(a nonzero failure code other than `-1`) does not stop accumulation — the
loop keeps reading further chunks until the deadline and returns them all —
whereas `RPRT -1` stops it immediately.  The claim that every nonzero
failure code terminates accumulation is therefore false. -/
theorem c2_counterexample :
    executeCommand true true "\\set_freq 14250000"
        [Chunk.data "RPRT -9\n" 1, Chunk.data "late\n" 1, Chunk.data "more\n" 1] =
      Except.ok "RPRT -9\nlate\nmore" ∧
    executeCommand true true "\\set_freq 14250000"
        [Chunk.data "RPRT -9\n" 1, Chunk.data "late\n" 1, Chunk.data "more\n" 1] ≠
      Except.ok "RPRT -9" ∧
    executeCommand true true "\\set_freq 14250000"
        [Chunk.data "RPRT -1\n" 1, Chunk.data "late\n" 1] = Except.ok "RPRT -1" := by
  have e1 : executeCommand true true "\\set_freq 14250000"
      [Chunk.data "RPRT -9\n" 1, Chunk.data "late\n" 1, Chunk.data "more\n" 1] =
      Except.ok "RPRT -9\nlate\nmore" := by
    rw [executeCommand_connected,
      recvLoop_data_continue _ _ _ _ _ (by norm_num) (by decide) (by norm_num),
      recvLoop_data_continue _ _ _ _ _ (by norm_num) (by decide) (by norm_num),
      recvLoop_data_deadline _ _ _ _ _ (by norm_num) (by decide) (by norm_num)]
    decide
  refine ⟨e1, ?_, ?_⟩
  · rw [e1]
    decide
  · rw [executeCommand_connected,
      recvLoop_data_complete _ _ _ _ _ (by norm_num) (by decide)]
    decide

/-- C2 (amended): the loop stops and returns as soon as the stripped
accumulated response ends with `RPRT 0` or with `RPRT -1` — these are the
only two recognised terminators; with any other trailing `RPRT` code the
completeness test fails and accumulation continues within the deadline. -/
theorem c2_amended :
    (∀ (resp s2 : String) (t dt : Rat) (rest : List Chunk), ¬dt > 2 →
      rprtComplete (resp ++ s2) = true →
      recvLoop resp t (Chunk.data s2 dt :: rest) = Except.ok (pyStrip (resp ++ s2))) ∧
    (∀ (resp s2 : String) (t dt : Rat) (rest : List Chunk), ¬dt > 2 →
      rprtComplete (resp ++ s2) = false → ¬t + dt > 2 →
      recvLoop resp t (Chunk.data s2 dt :: rest) = recvLoop (resp ++ s2) (t + dt) rest) ∧
    rprtComplete "RPRT 0" = true ∧
    rprtComplete "RPRT -1" = true ∧
    rprtComplete "RPRT -9" = false ∧
    rprtComplete "data\nRPRT -5" = false :=
  ⟨recvLoop_data_complete, recvLoop_data_continue, by decide, by decide, by decide, by decide⟩

/-- C2 witness: the amended theorem at concrete inputs — `RPRT -1` stops
the loop with the remaining stream untouched, `RPRT -9` merely continues
it. -/
theorem c2_amended_witness :
    recvLoop "" 0 [Chunk.data "RPRT -1\n" 1] = Except.ok (pyStrip ("" ++ "RPRT -1\n")) ∧
    recvLoop "" 0 [Chunk.data "RPRT -9\n" 1] = recvLoop ("" ++ "RPRT -9\n") (0 + 1) [] :=
  ⟨c2_amended.1 "" "RPRT -1\n" 0 1 [] (by norm_num) (by decide),
   c2_amended.2.1 "" "RPRT -9\n" 0 1 [] (by norm_num) (by decide) (by norm_num)⟩

/-- C3, counterexample: a response stream that keeps delivering data but
never contains a terminal status line is returned as a normal (non-error)
response once the 2-second deadline has passed — `execute_command` does not
raise a protocol-timeout error in this situation. -/
theorem c3_counterexample :
    executeCommand true true "\\get_freq"
        [Chunk.data "14250000\n" 1, Chunk.data "junk\n" 2] =
      Except.ok "14250000\njunk" ∧
    ∀ msg : String,
      executeCommand true true "\\get_freq"
          [Chunk.data "14250000\n" 1, Chunk.data "junk\n" 2] ≠
        Except.error msg := by
  have e1 : executeCommand true true "\\get_freq"
      [Chunk.data "14250000\n" 1, Chunk.data "junk\n" 2] = Except.ok "14250000\njunk" := by
    rw [executeCommand_connected,
      recvLoop_data_continue _ _ _ _ _ (by norm_num) (by decide) (by norm_num),
      recvLoop_data_deadline _ _ _ _ _ (by norm_num) (by decide) (by norm_num)]
    decide
  refine ⟨e1, ?_⟩
  intro msg h
  rw [e1] at h
  cases h

/-- C3 (amended): without a terminal status line `execute_command` never
blocks indefinitely, but the outcome depends on the stream: a stalled
socket (nothing within the 2-second `recv` timeout) raises a timeout
error, while data arriving past the 2-second wall-clock deadline makes the
accumulated non-terminated text be returned as a normal response. -/
theorem c3_amended :
    (∀ (resp : String) (t : Rat),
      recvLoop resp t [] = Except.error "Command execution failed: timed out") ∧
    (∀ (resp s2 : String) (t dt : Rat) (rest : List Chunk), dt > 2 →
      recvLoop resp t (Chunk.data s2 dt :: rest) =
        Except.error "Command execution failed: timed out") ∧
    (∀ (resp s2 : String) (t dt : Rat) (rest : List Chunk), ¬dt > 2 →
      rprtComplete (resp ++ s2) = false → t + dt > 2 →
      recvLoop resp t (Chunk.data s2 dt :: rest) = Except.ok (pyStrip (resp ++ s2))) :=
  ⟨recvLoop_nil, recvLoop_data_recvTimeout, recvLoop_data_deadline⟩

/-- C3 witness: the amended theorem at concrete inputs — a chunk that takes
3 seconds to arrive raises the timeout error, and a chunk arriving after
the overall deadline yields the accumulated data as a normal response. -/
theorem c3_amended_witness :
    recvLoop "" 0 [Chunk.data "zzz" 3] = Except.error "Command execution failed: timed out" ∧
    recvLoop "a" 2 [Chunk.data "b\n" 1] = Except.ok (pyStrip ("a" ++ "b\n")) :=
  ⟨c3_amended.2.1 "" "zzz" 0 3 [] (by norm_num),
   c3_amended.2.2 "a" "b\n" 2 1 [] (by norm_num) (by decide) (by norm_num)⟩

/-- C4, counterexample: in the reachable state `runS2` a reconnection timer
is pending, and it is still pending (and still live) after `stop()`
returns — `stop` never cancels the timer. -/
theorem c4_counterexample :
    runS2.reconnectTimerSet = true ∧
    runS2.liveTimers = 1 ∧
    (stopRun runS2).reconnectTimerSet = true ∧
    (stopRun runS2).liveTimers = 1 := by
  decide

/-- C4 (amended): `stop()` closes the socket, terminates the daemon
process and marks the session disconnected, emitting a `disconnected`
status; each step is safe in any state, and a second `stop` changes
nothing but the event log — but the reconnection-timer state is left
untouched, so a timer pending before `stop` remains pending after it. -/
theorem c4_amended : ∀ s : MState,
    (stopRun s).socketSome = false ∧
    (stopRun s).rigctldProc = none ∧
    (stopRun s).connected = false ∧
    (stopRun s).reconnectTimerSet = s.reconnectTimerSet ∧
    (stopRun s).liveTimers = s.liveTimers ∧
    (stopRun s).events = s.events ++ [Ev.disconnectedEv] ∧
    stripEvents (stopRun (stopRun s)) = stripEvents (stopRun s) :=
  fun _ => ⟨rfl, rfl, rfl, rfl, rfl, rfl, rfl⟩

/-- C5, counterexample: neither `get_status` version returns the claimed
field set — the primary module's dict lacks `host`, `reconnectAttempts`
and `daemonRunning` (it has exactly `connected`, `model`, `device`,
`port`), and the `hamlib` copy carries the extra key `binary_path`. -/
theorem c5_counterexample :
    (getStatusV1 initState).1.map Prod.fst = ["connected", "model", "device", "port"] ∧
    "host" ∉ (getStatusV1 initState).1.map Prod.fst ∧
    "reconnectAttempts" ∉ (getStatusV1 initState).1.map Prod.fst ∧
    "daemonRunning" ∉ (getStatusV1 initState).1.map Prod.fst ∧
    "binary_path" ∈ (getStatusV2 initState).1.map Prod.fst := by
  decide

/-- C5 (amended): `get_status` returns, without raising and without
mutating the session, a dict whose keys are exactly `connected`, `model`,
`device`, `port` in the primary module, and exactly `connected`, `port`,
`host`, `model`, `device`, `binary_path`, `reconnect_attempts`,
`max_reconnect_attempts`, `rigctld_running` in the `hamlib` copy. -/
theorem c5_amended : ∀ s : MState,
    (getStatusV1 s).1.map Prod.fst = ["connected", "model", "device", "port"] ∧
    (getStatusV2 s).1.map Prod.fst =
      ["connected", "port", "host", "model", "device", "binary_path",
       "reconnect_attempts", "max_reconnect_attempts", "rigctld_running"] ∧
    (getStatusV1 s).2 = s ∧
    (getStatusV2 s).2 = s :=
  fun _ => ⟨rfl, rfl, rfl, rfl⟩

/-- C6, counterexample: when the `\dump_state` sub-query fails, `get_info`
does not omit a field and carry on — the whole call raises, contradicting
the claim that any failing sub-query is merely dropped from the
aggregate. -/
theorem c6_counterexample :
    getInfo 1 none true (Except.error "connection reset")
        (Except.ok "14250000\nRPRT 0") (Except.ok "USB 2400\nRPRT 0") =
      Except.error "Failed to get radio info: connection reset" := by
  decide

/-- C6 (amended): with `\dump_state` succeeding, `get_info` always returns
a dict led by the model and device identity; a failed `\get_freq` omits
`frequency` and a failed `\get_mode` omits `mode` and `passband`; but a
failed `\dump_state` fails the whole call. -/
theorem c6_amended :
    (∀ (m : Int) (dev : Option String) (d : String) (fR mR : Except String String),
      ∃ rest, getInfo m dev true (Except.ok d) fR mR =
        Except.ok (("model", Val.vInt m) :: ("device", Val.ofOptStr dev) :: rest)) ∧
    (∀ (m : Int) (dev : Option String) (d e : String) (mR : Except String String)
        (l : List (String × Val)),
      getInfo m dev true (Except.ok d) (Except.error e) mR = Except.ok l →
      "frequency" ∉ l.map Prod.fst) ∧
    (∀ (m : Int) (dev : Option String) (d e : String) (fR : Except String String)
        (l : List (String × Val)),
      getInfo m dev true (Except.ok d) fR (Except.error e) = Except.ok l →
      "mode" ∉ l.map Prod.fst ∧ "passband" ∉ l.map Prod.fst) ∧
    (∀ (m : Int) (dev : Option String) (e : String) (fR mR : Except String String),
      getInfo m dev true (Except.error e) fR mR =
        Except.error ("Failed to get radio info: " ++ e)) := by
  refine ⟨?_, ?_, ?_, ?_⟩
  · intro m dev d fR mR
    exact ⟨freqInfoFields fR ++ modeInfoFields mR, rfl⟩
  · intro m dev d e mR l h
    have hl : ("model", Val.vInt m) :: ("device", Val.ofOptStr dev) ::
        (freqInfoFields (Except.error e) ++ modeInfoFields mR) = l := by
      cases h
      rfl
    rw [← hl]
    intro hmem
    simp only [freqInfoFields, List.map_cons, List.map_append, List.mem_cons,
      List.mem_append] at hmem
    rcases hmem with h1 | h1 | h1 | h1
    · simp at h1
    · simp at h1
    · simp at h1
    · rcases modeInfoFields_keys mR _ h1 with h2 | h2 <;> simp at h2
  · intro m dev d e fR l h
    have hl : ("model", Val.vInt m) :: ("device", Val.ofOptStr dev) ::
        (freqInfoFields fR ++ modeInfoFields (Except.error e)) = l := by
      cases h
      rfl
    rw [← hl]
    constructor
    · intro hmem
      simp only [modeInfoFields, List.map_cons, List.map_append, List.mem_cons,
        List.mem_append] at hmem
      rcases hmem with h1 | h1 | h1 | h1
      · simp at h1
      · simp at h1
      · have h2 := freqInfoFields_keys fR _ h1
        simp at h2
      · simp at h1
    · intro hmem
      simp only [modeInfoFields, List.map_cons, List.map_append, List.mem_cons,
        List.mem_append] at hmem
      rcases hmem with h1 | h1 | h1 | h1
      · simp at h1
      · simp at h1
      · have h2 := freqInfoFields_keys fR _ h1
        simp at h2
      · simp at h1
  · intro m dev e fR mR
    rfl

/-- C6 witness: the amended theorem at concrete inputs — a failed
`\get_freq` leaves a four-entry dict with no `frequency` key, and a failed
`\dump_state` fails the call. -/
theorem c6_amended_witness :
    "frequency" ∉ (([("model", Val.vInt 1), ("device", Val.vNone),
        ("mode", Val.vStr "USB"), ("passband", Val.vInt 2400)] :
        List (String × Val)).map Prod.fst) ∧
    getInfo 1 none true (Except.error "boom") (Except.ok "1\nRPRT 0")
        (Except.ok "USB\nRPRT 0") =
      Except.error ("Failed to get radio info: " ++ "boom") :=
  ⟨c6_amended.2.1 1 none "d" "x" (Except.ok "USB 2400\nRPRT 0")
      [("model", Val.vInt 1), ("device", Val.vNone),
       ("mode", Val.vStr "USB"), ("passband", Val.vInt 2400)] (by decide),
   c6_amended.2.2.2 1 none "boom" (Except.ok "1\nRPRT 0") (Except.ok "USB\nRPRT 0")⟩

/-- C7: the literal spec examples parse as claimed — `"14250000\nRPRT 0"`
gives frequency 14250000, `"USB 2400\nRPRT 0"` gives mode USB with
passband 2400 (and a missing passband defaults to 0), `"0\nRPRT 0"` gives
PTT off and `"1\nRPRT 0"` PTT on; in general any response whose first line
is a nonzero integer yields PTT enabled. -/
theorem c7_parsing :
    getFrequencyOfResponse "14250000\nRPRT 0" = Except.ok (14250000 : Rat) ∧
    getModeOfResponse "USB 2400\nRPRT 0" = Except.ok ("USB", (2400 : Int)) ∧
    getModeOfResponse "USB\nRPRT 0" = Except.ok ("USB", (0 : Int)) ∧
    getPttOfResponse "0\nRPRT 0" = Except.ok false ∧
    getPttOfResponse "1\nRPRT 0" = Except.ok true ∧
    (∀ (r : String) (n : Int), pyIn "RPRT 0" r = true →
      pyInt? (pyStrip (firstLine r)) = some n →
      getPttOfResponse r = Except.ok (decide (n ≠ 0))) := by
  refine ⟨by decide, by decide, by decide, by decide, by decide, ?_⟩
  intro r n hin hn
  simp [getPttOfResponse, hin, hn]

/-- C7 witness: the general PTT conjunct applied to the nonzero integer 5. -/
theorem c7_parsing_witness :
    getPttOfResponse "5\nRPRT 0" = Except.ok (decide ((5 : Int) ≠ 0)) :=
  c7_parsing.2.2.2.2.2 "5\nRPRT 0" 5 (by decide) (by decide)

/-- C8: in every reachable session state the reconnect attempt counter
never exceeds the maximum (which keeps its default value 5), at most one
reconnection timer is live at any time, and any successful `connect`
resets the counter to zero. -/
theorem c8_attempt_bound : ∀ s : MState, Reachable s →
    s.reconnectAttempts ≤ s.maxReconnectAttempts ∧
    s.maxReconnectAttempts = 5 ∧
    s.liveTimers ≤ 1 ∧
    ∀ t : MState, (connectRun true t).reconnectAttempts = 0 := by
  intro s hs
  obtain ⟨h1, h2, h3, _h4⟩ := inv_reachable hs
  refine ⟨h1, h2, ?_, fun t => rfl⟩
  rw [h3]
  cases s.reconnectTimerSet <;> simp

/-- C8 witness: the theorem at the initial state, with the reset conjunct
instantiated at the fully exhausted state `runS6`. -/
theorem c8_attempt_bound_witness :
    initState.reconnectAttempts ≤ initState.maxReconnectAttempts ∧
    initState.maxReconnectAttempts = 5 ∧
    initState.liveTimers ≤ 1 ∧
    (connectRun true runS6).reconnectAttempts = 0 :=
  ⟨(c8_attempt_bound initState Reachable.init).1,
   (c8_attempt_bound initState Reachable.init).2.1,
   (c8_attempt_bound initState Reachable.init).2.2.1,
   (c8_attempt_bound initState Reachable.init).2.2.2 runS6⟩

/-- C9: `emit` invokes every handler registered for the event kind,
synchronously and in registration order, and always returns normally —
a raising handler is caught, so it neither stops delivery to later
handlers nor propagates to the emitter; `on` appends at the end of the
registration list. -/
theorem c9_emit_isolation : ∀ (α : Type) (r : Callbacks α) (event : String) (x : α),
    (emitEvent r event x).2 = Except.ok () ∧
    (∀ cbs, getCallbacks r event = some cbs →
      (emitEvent r event x).1 = List.map Cb.id cbs) ∧
    (∀ (e : String) (c : Cb α),
      getCallbacks (onRegister r e c) e =
        Option.map (fun l => l ++ [c]) (getCallbacks r e)) := by
  intro α r event x
  refine ⟨?_, ?_, ?_⟩
  · unfold emitEvent
    cases hg : getCallbacks r event with
    | none => rfl
    | some cbs => exact (emitList_spec cbs x).2
  · intro cbs hg
    unfold emitEvent
    rw [hg]
    exact (emitList_spec cbs x).1
  · intro e c
    unfold getCallbacks onRegister
    by_cases h1 : e = "status"
    · simp [h1]
    · by_cases h2 : e = "data"
      · simp [h1, h2]
      · by_cases h3 : e = "debug"
        · simp [h1, h2, h3]
        · simp [h1, h2, h3]

/-- C9 witness: three handlers on `status`, the middle one raising — all
three run in order and the emitter sees a normal return. -/
theorem c9_emit_isolation_witness :
    (emitEvent demoReg "status" 0).2 = Except.ok () ∧
    (emitEvent demoReg "status" 0).1 = [1, 2, 3] :=
  ⟨(c9_emit_isolation Nat demoReg "status" 0).1,
   by rw [(c9_emit_isolation Nat demoReg "status" 0).2.1 demoReg.status rfl]; rfl⟩

/-- C10 (implicit behaviour, confirmed): every typed operation classifies
a raw response as successful exactly when the substring `RPRT 0` occurs
anywhere in it — not only as the trailing status line — so responses such
as `"freq data\nRPRT 0\nRPRT -5"` (success token in a data line, failing
terminal line) or `"RPRT 01"` are treated as successes. -/
theorem c10_rprt_substring :
    (∀ r : String, setFrequencyOfResponse r = Except.ok true ↔ pyIn "RPRT 0" r = true) ∧
    (∀ (r : String) (q : Rat),
      getFrequencyOfResponse r = Except.ok q → pyIn "RPRT 0" r = true) ∧
    (∀ (r : String) (q : Rat), pyIn "RPRT 0" r = true →
      pyFloat? (pyStrip (firstLine r)) = some q →
      getFrequencyOfResponse r = Except.ok q) ∧
    (∀ (r : String) (v : String × Int),
      getModeOfResponse r = Except.ok v → pyIn "RPRT 0" r = true) ∧
    (∀ (r : String) (b : Bool),
      getPttOfResponse r = Except.ok b → pyIn "RPRT 0" r = true) ∧
    (∀ (nm r : String) (q : Rat),
      getLevelOfResponse nm r = Except.ok q → pyIn "RPRT 0" r = true) ∧
    (∀ r : String, setModeOfResponse r = Except.ok true ↔ pyIn "RPRT 0" r = true) ∧
    (∀ r : String, setPttOfResponse r = Except.ok true ↔ pyIn "RPRT 0" r = true) ∧
    (∀ nm r : String, setLevelOfResponse nm r = Except.ok true ↔ pyIn "RPRT 0" r = true) ∧
    setFrequencyOfResponse "freq data\nRPRT 0\nRPRT -5" = Except.ok true ∧
    setFrequencyOfResponse "RPRT 01" = Except.ok true ∧
    getFrequencyOfResponse "14250000\nRPRT 0\nRPRT -5" = Except.ok (14250000 : Rat) := by
  refine ⟨?_, ?_, ?_, ?_, ?_, ?_, ?_, ?_, ?_, by decide, by decide, by decide⟩
  · intro r
    by_cases hin : pyIn "RPRT 0" r = true <;> simp [setFrequencyOfResponse, hin]
  · intro r q h
    by_cases hin : pyIn "RPRT 0" r = true
    · exact hin
    · exfalso
      unfold getFrequencyOfResponse at h
      rw [if_neg hin] at h
      cases h
  · intro r q hin hq
    simp [getFrequencyOfResponse, hin, hq]
  · intro r v h
    by_cases hin : pyIn "RPRT 0" r = true
    · exact hin
    · exfalso
      unfold getModeOfResponse at h
      rw [if_neg hin] at h
      cases h
  · intro r b h
    by_cases hin : pyIn "RPRT 0" r = true
    · exact hin
    · exfalso
      unfold getPttOfResponse at h
      rw [if_neg hin] at h
      cases h
  · intro nm r q h
    by_cases hin : pyIn "RPRT 0" r = true
    · exact hin
    · exfalso
      unfold getLevelOfResponse at h
      rw [if_neg hin] at h
      cases h
  · intro r
    by_cases hin : pyIn "RPRT 0" r = true <;> simp [setModeOfResponse, hin]
  · intro r
    by_cases hin : pyIn "RPRT 0" r = true <;> simp [setPttOfResponse, hin]
  · intro nm r
    by_cases hin : pyIn "RPRT 0" r = true <;> simp [setLevelOfResponse, hin]

/-- C10 witness: the success-implies-substring conjuncts applied at
concrete responses. -/
theorem c10_rprt_substring_witness :
    pyIn "RPRT 0" "14250000\nRPRT 0" = true ∧
    getFrequencyOfResponse "7\nRPRT 0" = Except.ok (7 : Rat) :=
  ⟨c10_rprt_substring.2.1 "14250000\nRPRT 0" 14250000 (by decide),
   c10_rprt_substring.2.2.1 "7\nRPRT 0" 7 (by decide) (by decide)⟩

end RigRanger
